import Mathlib

/-!
Shallow embedding of the `sifive-core` crate: the instruction-encoding layer
(`src/asm.rs`), the custom CSR accessors (`src/register.rs`) and the feature
mask (`src/feature.rs`), together with theorems checking the specification's
claims about them.
-/

namespace SifiveCore

/-- RISC-V I-type instruction word, as synthesized by the `.insn i` assembler
directive used throughout `src/asm.rs`: fields `imm[11:0]`, `rs1`, `funct3`,
`rd`, `opcode` packed at bit offsets 20, 15, 12, 7, 0.  The immediate is
signed 12-bit, reduced to its two's-complement bit pattern. -/
def insn_i (opcode funct3 rd rs1 : Nat) (imm : Int) : Nat :=
  ((imm % 4096).toNat <<< 20) ||| (rs1 <<< 15) ||| (funct3 <<< 12) ||| (rd <<< 7) ||| opcode

/-- The operations of the `asm` module (`src/asm.rs`).  The two
address-parameterized cache operations carry the index of the integer
register chosen by the compiler for the `in(reg)` operand. -/
inductive Op where
  | cease
  | cflush_d_l1_all
  | cflush_d_l1_va (rs1 : Nat)
  | cdiscard_d_l1_all
  | cdiscard_d_l1_va (rs1 : Nat)
  | mnret
deriving DecidableEq

/-- The instruction word each `asm` function emits, transcribed from the
`asm!` line of each function in `src/asm.rs`:
`cease` is `.insn i 0x73, 0, x0, x0, 0x305`;
`cflush_d_l1_all` is `.insn i 0x73, 0, x0, x0, -0x40`;
`cflush_d_l1_va` is `.insn i 0x73, 0, x0, rs1, -0x40`;
`cdiscard_d_l1_all` is `.insn i 0x73, 0, x0, x0, -0x3E`;
`cdiscard_d_l1_va` is `.insn i 0x73, 0, x0, rs1, -0x3E`;
`mnret` is `.insn i 0x73, 0, x0, x0, 0x702`. -/
def emits : Op → Nat
  | .cease => insn_i 0x73 0 0 0 0x305
  | .cflush_d_l1_all => insn_i 0x73 0 0 0 (-0x40)
  | .cflush_d_l1_va rs1 => insn_i 0x73 0 0 rs1 (-0x40)
  | .cdiscard_d_l1_all => insn_i 0x73 0 0 0 (-0x3E)
  | .cdiscard_d_l1_va rs1 => insn_i 0x73 0 0 rs1 (-0x3E)
  | .mnret => insn_i 0x73 0 0 0 0x702

/-- Whether the Rust function for the operation returns control to its
caller, read off the source signatures: `cease` and `mnret` are declared
`-> !` with `options(noreturn)`; the four cache operations return `()`. -/
def returnsControl : Op → Bool
  | .cease => false
  | .mnret => false
  | .cflush_d_l1_all => true
  | .cflush_d_l1_va _ => true
  | .cdiscard_d_l1_all => true
  | .cdiscard_d_l1_va _ => true

/-- Sequential execution of a straight-line program of `asm` operations:
an operation executes only when every earlier one returned control. -/
def executed : List Op → List Op
  | [] => []
  | op :: rest => op :: (if returnsControl op then executed rest else [])

/-- The public function names the `asm` module exports
(`pub fn` / `pub unsafe fn` items of `src/asm.rs`, in source order). -/
def asmExports : List String :=
  ["cease", "cflush_d_l1_all", "cflush_d_l1_va",
   "cdiscard_d_l1_all", "cdiscard_d_l1_va", "mnret"]

/-- Modelled from the spec: the Zihintpause PAUSE spin-wait hint word that
`core::hint::spin_loop()` lowers to.  The `asm` module's documentation says
the PAUSE instruction is deliberately not implemented in this crate; the
spec's interface table gives its fixed encoding `0x0100000F`, which is the
FENCE opcode `0x0F` with `funct3 = 0` and immediate field `0x010`
(fm = 0, pred = W, succ = none). -/
def pause_insn : Nat := insn_i 0x0F 0 0 0 0x010

/-! CSR model for `src/register.rs`.  The machine's CSR file is a map from
CSR address to value; every accessor is transcribed from the `asm!` line of
the corresponding Rust function.  XLEN is 64 on these cores, so register
values are naturals below `2 ^ 64`. -/

/-- CSR address of the branch prediction mode register (`csrr {}, 0x7C0`). -/
def mbpmAddr : Nat := 0x7C0

/-- CSR address of the feature disable register (`csrrc 0x7C1, {}`). -/
def mfeatureAddr : Nat := 0x7C1

/-- CSR address read by `mnscratch::read` (`csrr {}, 0x351`). -/
def mnscratchAddr : Nat := 0x351

/-- CSR address read by `mnepc::read` (`csrr {}, 0x351`). -/
def mnepcAddr : Nat := 0x351

/-- CSR address read by the `mncause` accessors (`csrr {}, 0x352`). -/
def mncauseAddr : Nat := 0x352

/-- A machine state: the CSR file, mapping CSR address to current value. -/
def CsrFile : Type := Nat → Nat

/-- Effect of a `csrrs`-family instruction with `rd = x0`: the bits set in
the mask are set in the CSR at `addr`; other CSRs are untouched. -/
def csrSetBits (s : CsrFile) (addr mask : Nat) : CsrFile :=
  fun a => if a = addr then s a ||| mask else s a

/-- Effect of a `csrrc`-family instruction with `rd = x0`: the bits set in
the mask are cleared in the CSR at `addr` (64-bit `csr AND NOT mask`);
other CSRs are untouched. -/
def csrClearBits (s : CsrFile) (addr mask : Nat) : CsrFile :=
  fun a => if a = addr then s a &&& (mask ^^^ (2 ^ 64 - 1)) else s a

/-- Branch prediction mode register view (`mbpm::Mbpm`), a snapshot of the
raw bits. -/
structure Mbpm where
  bits : Nat

/-- `Mbpm::bdp`: `self.bits.get_bit(0)`. -/
def Mbpm.bdp (m : Mbpm) : Bool := m.bits.testBit 0

namespace mbpm

/-- `mbpm::read`: `csrr {}, 0x7C0` wrapped in the `Mbpm` view. -/
def read (s : CsrFile) : Mbpm := ⟨s mbpmAddr⟩

/-- `mbpm::clear_bdp`: the instruction `csrrci 0x7C0, 0` — a clear-bits
update of CSR `0x7C0` whose immediate bit mask is `0`. -/
def clear_bdp (s : CsrFile) : CsrFile := csrClearBits s mbpmAddr 0

/-- `mbpm::set_bdp`: the instruction `csrrsi 0x7C0, 0` — a set-bits update
of CSR `0x7C0` whose immediate bit mask is `0`. -/
def set_bdp (s : CsrFile) : CsrFile := csrSetBits s mbpmAddr 0

end mbpm

/-- Feature mask (`feature::Mask`), a bit set over `usize`. -/
structure Mask where
  bits : Nat

namespace Mask

/-- Disable data cache clock gating: `1 << 0`. -/
def DCACHE_CLOCK_GATING : Mask := ⟨1 <<< 0⟩

/-- Disable instruction cache clock gating: `1 << 1`. -/
def ICACHE_CLOCK_GATING : Mask := ⟨1 <<< 1⟩

/-- Disable pipeline clock gating: `1 << 2`. -/
def PIPELINE_CLOCK_GATING : Mask := ⟨1 <<< 2⟩

/-- Disable speculative instruction cache refill: `1 << 3`. -/
def SPECULATIVE_ICACHE_REFILL : Mask := ⟨1 <<< 3⟩

/-- Suppress corrupt signal on GrantData messages: `1 << 9`. -/
def CORRUPT_SIGNAL_GRANTDATA : Mask := ⟨1 <<< 9⟩

/-- Disable short forward branch optimization: `1 << 16`. -/
def SHORT_FORWARD_BRANCH_OPTIMIZE : Mask := ⟨1 <<< 16⟩

/-- Disable instruction cache next-line prefetcher: `1 << 17`. -/
def ICACHE_NEXT_LINE_PREFETCH : Mask := ⟨1 <<< 17⟩

/-- The union of all defined flags (`Mask::all()` of the bitflags type). -/
def all : Mask :=
  ⟨DCACHE_CLOCK_GATING.bits ||| ICACHE_CLOCK_GATING.bits |||
   PIPELINE_CLOCK_GATING.bits ||| SPECULATIVE_ICACHE_REFILL.bits |||
   CORRUPT_SIGNAL_GRANTDATA.bits ||| SHORT_FORWARD_BRANCH_OPTIMIZE.bits |||
   ICACHE_NEXT_LINE_PREFETCH.bits⟩

end Mask

namespace mfeature

/-- `mfeature::clear_features`: the instruction `csrrc 0x7C1, {}` with the
mask's raw bits in the source register. -/
def clear_features (s : CsrFile) (flags : Mask) : CsrFile :=
  csrClearBits s mfeatureAddr flags.bits

end mfeature

/-- `feature::enable`: forwards to `mfeature::clear_features`. -/
def feature.enable (s : CsrFile) (flags : Mask) : CsrFile :=
  mfeature.clear_features s flags

namespace mnscratch

/-- `mnscratch::read`: `csrr {}, 0x351`. -/
def read (s : CsrFile) : Nat := s mnscratchAddr

/-- `mnscratch::write`: `csrw 0x351, {}`. -/
def write (s : CsrFile) (data : Nat) : CsrFile :=
  fun a => if a = mnscratchAddr then data else s a

end mnscratch

namespace mnepc

/-- `mnepc::read`: `csrr {}, 0x351`. -/
def read (s : CsrFile) : Nat := s mnepcAddr

end mnepc

/-- `mncause::Nmi`, the NMI cause enumeration. -/
inductive Nmi where
  | RnmiInput
  | BusError
deriving DecidableEq

/-- Discriminant values of `mncause::Nmi` (`#[repr(usize)]`). -/
def Nmi.toRaw : Nmi → Nat
  | .RnmiInput => 2
  | .BusError => 3

namespace mncause

/-- `mncause::is_supported`: reads CSR `0x352` and compares with zero. -/
def is_supported (s : CsrFile) : Bool := s mncauseAddr != 0

/-- `mncause::exception_code`: reads CSR `0x352` and decodes it with the
source's `match`: `2 => Some(RnmiInput)`, `3 => Some(BusError)`,
`_ => None`. -/
def exception_code (s : CsrFile) : Option Nmi :=
  match s mncauseAddr with
  | 2 => some .RnmiInput
  | 3 => some .BusError
  | _ => none

end mncause

end SifiveCore

namespace SifiveCore

/-- C1: each fixed-word `asm` operation emits exactly the documented 32-bit
encoding: `cease` emits `0x30500073`, `cflush_d_l1_all` emits `0xFC000073`,
`cdiscard_d_l1_all` emits `0xFC200073`, and `mnret` emits `0x70200073`. -/
theorem fixed_word_encodings :
    emits .cease = 0x30500073 ∧
    emits .cflush_d_l1_all = 0xFC000073 ∧
    emits .cdiscard_d_l1_all = 0xFC200073 ∧
    emits .mnret = 0x70200073 := by
  refine ⟨?_, ?_, ?_, ?_⟩ <;> decide

/-- C2: for every register index `r < 32` carrying the address operand,
`cflush_d_l1_va` emits `0xFC000073 + (r <<< 15)` and `cdiscard_d_l1_va`
emits `0xFC200073 + (r <<< 15)`, bits 15-19 of the emitted word hold `r`,
and at the designated argument register `r = 10` the words are
`0xFC000073 + (10 <<< 15)` and `0xFC200073 + (10 <<< 15)`. -/
theorem va_encodings :
    ∀ r < 32,
      emits (.cflush_d_l1_va r) = 0xFC000073 + (r <<< 15) ∧
      emits (.cdiscard_d_l1_va r) = 0xFC200073 + (r <<< 15) ∧
      (emits (.cflush_d_l1_va r) >>> 15) % 32 = r ∧
      (emits (.cdiscard_d_l1_va r) >>> 15) % 32 = r := by
  decide

/-- C2 witness: instantiation at the designated argument register index 10. -/
theorem va_encodings_witness :
    emits (.cflush_d_l1_va 10) = 0xFC000073 + (10 <<< 15) ∧
    emits (.cdiscard_d_l1_va 10) = 0xFC200073 + (10 <<< 15) ∧
    (emits (.cflush_d_l1_va 10) >>> 15) % 32 = 10 ∧
    (emits (.cdiscard_d_l1_va 10) >>> 15) % 32 = 10 :=
  va_encodings 10 (by decide)

/-- C3: the code at the failing inputs.  `set_bdp` is `csrrsi 0x7C0, 0` and
`clear_bdp` is `csrrci 0x7C0, 0`: both carry immediate bit mask `0`, so
they set and clear no bits and leave the CSR unchanged.  Starting from a
CSR file whose branch prediction CSR is `0`, after `set_bdp` the subsequent
`read().bdp()` is `false` (the claim says `true`); starting from value `1`,
after `clear_bdp` it is `true` (the claim says `false`). -/
theorem bdp_updates_are_noops :
    (mbpm.read (mbpm.set_bdp (fun _ => 0))).bdp = false ∧
    (mbpm.read (mbpm.clear_bdp (fun _ => 1))).bdp = true := by
  constructor <;> decide

/-- C4: `mfeature::clear_features` computes `R AND NOT M` on the feature
disable CSR: for every prior 64-bit register state `R` and every mask `M`,
bit `i` of the new value equals bit `i` of `R` with every bit of `M`
cleared — it clears exactly the bits present in `M` and never sets a bit
that was previously zero. -/
theorem clear_features_spec (s : CsrFile) (M : Mask)
    (hR : s mfeatureAddr < 2 ^ 64) (i : Nat) :
    (mfeature.clear_features s M mfeatureAddr).testBit i
      = ((s mfeatureAddr).testBit i && !(M.bits.testBit i)) := by
  show ((if mfeatureAddr = mfeatureAddr then
      s mfeatureAddr &&& (M.bits ^^^ (2 ^ 64 - 1)) else s mfeatureAddr)).testBit i = _
  rw [if_pos rfl, Nat.testBit_and, Nat.testBit_xor, Nat.testBit_two_pow_sub_one]
  by_cases h : i < 64
  · simp [h]
  · have h64 : (2 : Nat) ^ 64 ≤ 2 ^ i := Nat.pow_le_pow_right (by norm_num) (by omega)
    have hz : (s mfeatureAddr).testBit i = false :=
      Nat.testBit_lt_two_pow (lt_of_lt_of_le hR h64)
    simp [hz]

/-- C4 witness: instantiation at register state 5, the data-cache
clock-gating mask, bit 0. -/
theorem clear_features_spec_witness :
    (fun _ : Nat => (5 : Nat)) mfeatureAddr < 2 ^ 64 ∧
    (mfeature.clear_features (fun _ => 5) Mask.DCACHE_CLOCK_GATING mfeatureAddr).testBit 0
      = (((fun _ : Nat => (5 : Nat)) mfeatureAddr).testBit 0 &&
         !(Mask.DCACHE_CLOCK_GATING.bits.testBit 0)) :=
  ⟨by norm_num, clear_features_spec (fun _ => 5) Mask.DCACHE_CLOCK_GATING (by norm_num) 0⟩

/-- C5 counterexample: the `asm` module exports no `pause_hint` operation;
its module documentation states the PAUSE spin-wait hint is deliberately
not implemented in this crate. -/
theorem no_pause_hint : ¬ ("pause_hint" ∈ asmExports) := by decide

/-- C5 amended: the layer itself provides no spin-wait hint operation; the
`asm` module documentation delegates it to `core::hint::spin_loop()`, whose
PAUSE instruction word encodes to the documented `0x0100000F`. -/
theorem pause_delegated :
    ("pause_hint" ∉ asmExports) ∧ pause_insn = 0x0100000F := by
  exact ⟨by decide, by decide⟩

/-- C6: for every machine state, `exception_code` returns `some RnmiInput`
exactly when the NMI cause CSR reads 2, `some BusError` exactly when it
reads 3, and `none` for every other value (including 0), and
`is_supported` returns `true` exactly when the value read is nonzero. -/
theorem mncause_decode (s : CsrFile) :
    (mncause.exception_code s = some .RnmiInput ↔ s mncauseAddr = 2) ∧
    (mncause.exception_code s = some .BusError ↔ s mncauseAddr = 3) ∧
    (s mncauseAddr ≠ 2 → s mncauseAddr ≠ 3 → mncause.exception_code s = none) ∧
    (mncause.is_supported s = true ↔ s mncauseAddr ≠ 0) := by
  unfold mncause.exception_code mncause.is_supported
  generalize s mncauseAddr = v
  rcases v with _ | (_ | (_ | (_ | v))) <;> simp

/-- C6 witness: instantiation at the state whose NMI cause CSR reads 5. -/
theorem mncause_decode_witness :
    (fun _ : Nat => (5 : Nat)) mncauseAddr ≠ 2 ∧
    (fun _ : Nat => (5 : Nat)) mncauseAddr ≠ 3 ∧
    mncause.exception_code (fun _ => 5) = none :=
  ⟨by decide, by decide,
   (mncause_decode (fun _ => 5)).2.2.1 (by decide) (by decide)⟩

/-- C7: `mnscratch::read` and `mnepc::read` both access CSR address
`0x351`, and the two embedded read functions are the same function: on
every machine state they return equal values. -/
theorem mnscratch_mnepc_same_read :
    mnscratchAddr = 0x351 ∧ mnepcAddr = 0x351 ∧
    mnscratch.read = mnepc.read ∧
    ∀ s : CsrFile, mnscratch.read s = mnepc.read s :=
  ⟨rfl, rfl, rfl, fun _ => rfl⟩

/-- C8: the feature mask flags occupy exactly the documented bit positions
0, 1, 2, 3, 9, 16 and 17, and no flag occupies any other bit: a bit of the
union of all flags is set exactly at those positions. -/
theorem mask_bit_positions :
    Mask.DCACHE_CLOCK_GATING.bits = 2 ^ 0 ∧
    Mask.ICACHE_CLOCK_GATING.bits = 2 ^ 1 ∧
    Mask.PIPELINE_CLOCK_GATING.bits = 2 ^ 2 ∧
    Mask.SPECULATIVE_ICACHE_REFILL.bits = 2 ^ 3 ∧
    Mask.CORRUPT_SIGNAL_GRANTDATA.bits = 2 ^ 9 ∧
    Mask.SHORT_FORWARD_BRANCH_OPTIMIZE.bits = 2 ^ 16 ∧
    Mask.ICACHE_NEXT_LINE_PREFETCH.bits = 2 ^ 17 ∧
    ∀ i : Nat, Mask.all.bits.testBit i = true ↔
      (i = 0 ∨ i = 1 ∨ i = 2 ∨ i = 3 ∨ i = 9 ∨ i = 16 ∨ i = 17) := by
  refine ⟨rfl, rfl, rfl, rfl, rfl, rfl, rfl, fun i => ?_⟩
  by_cases h : i < 18
  · interval_cases i <;> decide
  · have h18 : (2 : Nat) ^ 18 ≤ 2 ^ i := Nat.pow_le_pow_right (by norm_num) (by omega)
    have hb : Mask.all.bits.testBit i = false :=
      Nat.testBit_lt_two_pow (lt_of_lt_of_le (by decide) h18)
    simp only [hb]
    constructor
    · intro hc
      exact absurd hc (by simp)
    · intro hc
      omega

/-- C9: `cease` and `mnret` never return control to the caller: their
source signatures are divergent (`-> !` with `options(noreturn)`), and in
any straight-line program of `asm` operations no operation placed after
either of them ever executes. -/
theorem terminal_ops :
    returnsControl .cease = false ∧ returnsControl .mnret = false ∧
    (∀ rest : List Op, executed (.cease :: rest) = [.cease]) ∧
    (∀ rest : List Op, executed (.mnret :: rest) = [.mnret]) :=
  ⟨rfl, rfl, fun _ => rfl, fun _ => rfl⟩

/-- C10: `Mbpm::bdp` depends only on bit 0 of the raw snapshot: any two
snapshots agreeing on bit 0 give the same result, and the nonzero snapshot
2, whose bit 0 is clear, reports dynamic prediction (`bdp` is `false`). -/
theorem bdp_depends_only_on_bit0 :
    (∀ a b : Nat, a.testBit 0 = b.testBit 0 → Mbpm.bdp ⟨a⟩ = Mbpm.bdp ⟨b⟩) ∧
    Mbpm.bdp ⟨2⟩ = false :=
  ⟨fun _ _ h => h, by decide⟩

/-- C10 witness: snapshots 1 and 3 agree on bit 0 and get equal results. -/
theorem bdp_depends_only_on_bit0_witness :
    (1 : Nat).testBit 0 = (3 : Nat).testBit 0 ∧ Mbpm.bdp ⟨1⟩ = Mbpm.bdp ⟨3⟩ :=
  ⟨by decide, bdp_depends_only_on_bit0.1 1 3 (by decide)⟩

end SifiveCore
